import Mathlib

/-!
Formal model of the drlfoam example training driver
(`examples/run_training.py`).

The driver orchestrates an episode-based reinforcement-learning loop:
it validates the configuration, copies a base simulation case, builds an
execution buffer and a PPO agent, optionally resumes from a checkpoint,
hands the simulation time window over to the buffer, and then runs
`for e in range(starting_episode, episodes)` performing
fill / read observations / statistics / update / checkpoint / policy push.

External collaborators (torch tensors, the PPO agent, the buffer's fill
machinery, the simulation environment, `check_finish_time`, the
filesystem) are not part of the source file under verification; they are
abstracted by the `Extern` parameter record.  Tensors are abstracted by the
two statistics the driver reads from them (`.mean()` and `.std()`),
carried as rationals; no claim below depends on floating-point rounding.
The driver itself is modelled as a pure function returning the ordered
list of externally observable actions (`Ev`) it performed together with
its outcome (`Except Err Unit`), where `Err` models the Python
exceptions that can escape `main`.
-/

/-- Abstraction of a torch tensor by the two statistics the driver reads
from it, namely the results of its `.mean()` and `.std()` calls. -/
structure Tensor where
  mean : ℚ
  std : ℚ
deriving DecidableEq

/-- The triple of parallel trajectory lists exposed by
`buffer.observations` (states, actions, rewards), one entry per
successful trial of the most recent fill. -/
structure Obs where
  states : List Tensor
  actions : List Tensor
  rewards : List Tensor
deriving DecidableEq

/-- Simulated time window of the base environment
(`base_env.start_time` / `base_env.end_time`). -/
structure EnvState where
  start_time : ℚ
  end_time : ℚ
deriving DecidableEq

/-- Driver-visible buffer state: the internal fill counter `_n_fills`
(overwritten on resume, line 150 of the source) and the base
environment the driver mutates in lines 159-160. -/
structure BufferState where
  n_fills : Nat
  base_env : EnvState
deriving DecidableEq

/-- Parsed command-line arguments, mirroring `parseArguments`. -/
structure Args where
  output : String
  environment : String
  iter : Nat
  runners : Nat
  buffer : Nat
  finish : ℚ
  timeout : Nat
  checkpoint : String
  simulation : String
deriving DecidableEq

/-- Python exceptions that can escape the driver in the modelled paths. -/
inductive Err where
  | unknownSimulation (name : String)
  | unknownExecuter (name : String)
  | finishTimeError
  | indexError
  | zeroDivisionError
  | emptySequenceError
deriving DecidableEq

/-- The execution backend chosen from the lowered CLI string
(lines 127-139 of the source; `local`/`slurm`). -/
inductive Backend where
  | localExec
  | slurmExec
deriving DecidableEq

/-- Externally observable actions of the driver, in program order. -/
inductive Ev where
  | makedirs (created : Bool)
  | copyBase
  | createEnv
  | checkFinish
  | createLocalBuffer
  | createSlurmConfig
  | createSlurmBuffer
  | createAgent
  | loadCheckpoint
  | createDummyPolicy
  | prepare
  | setStartTime (t : ℚ)
  | setEndTime (t : ℚ)
  | reset
  | startEpisode (e : Nat)
  | fill (e : Nat)
  | readObs (e : Nat)
  | printStats (e : Nat)
  | update (e : Nat) (states actions rewards : List Tensor)
  | saveCheckpoint (e : Nat)
  | tracePolicy (e : Nat)
  | updatePolicy (e : Nat)
  | savePolicy (e : Nat)
deriving DecidableEq

/-- Abstraction of all external collaborators of the driver: the
pre-existing filesystem state, the environment constructor, the effect
of `buffer.prepare()` on the base environment, the buffer constructor's
initial fill counter, the episode history stored in a loaded checkpoint
(`agent.history["episode"]`), the observations each fill produces, and
the outcome of `check_finish_time`. -/
structure Extern where
  outputExists : Bool
  baseExists : Bool
  envInit : String → EnvState
  afterPrepare : EnvState → EnvState
  initNFills : Nat
  historyEpisodes : List Nat
  obsAt : Nat → Obs
  finishTimeOk : ℚ → String → Bool

/-- The nine summary numbers computed by `print_statistics` before they
are formatted into log messages. -/
structure Stats where
  rewardMeanAvg : ℚ
  rewardMeanMin : ℚ
  rewardMeanMax : ℚ
  actionMeanAvg : ℚ
  actionMeanMin : ℚ
  actionMeanMax : ℚ
  actionStdAvg : ℚ
  actionStdMin : ℚ
  actionStdMax : ℚ
deriving DecidableEq

/-- Python `sum(l) / len(l)`: raises `ZeroDivisionError` on an empty
list. -/
def pyMean (l : List ℚ) : Except Err ℚ :=
  if l.length = 0 then Except.error Err.zeroDivisionError
  else Except.ok (l.sum / (l.length : ℚ))

/-- Python `min(l)`: raises `ValueError` on an empty sequence. -/
def pyMin : List ℚ → Except Err ℚ
  | [] => Except.error Err.emptySequenceError
  | x :: xs => Except.ok (xs.foldl min x)

/-- Python `max(l)`: raises `ValueError` on an empty sequence. -/
def pyMax : List ℚ → Except Err ℚ
  | [] => Except.error Err.emptySequenceError
  | x :: xs => Except.ok (xs.foldl max x)

/-- Model of `print_statistics` (source lines 62-69).  It computes the
per-trial reward means and action mean/std lists and then, in the
evaluation order of the three f-strings, the average (a division by the
list length, which raises `ZeroDivisionError` when the list is empty),
minimum and maximum of each.  The actual log formatting is dropped; the
computed numbers are returned. -/
def print_statistics (actions rewards : List Tensor) : Except Err Stats := do
  let rt := rewards.map Tensor.mean
  let at_mean := actions.map Tensor.mean
  let at_std := actions.map Tensor.std
  let rAvg ← pyMean rt
  let rMin ← pyMin rt
  let rMax ← pyMax rt
  let amAvg ← pyMean at_mean
  let amMin ← pyMin at_mean
  let amMax ← pyMax at_mean
  let asAvg ← pyMean at_std
  let asMin ← pyMin at_std
  let asMax ← pyMax at_std
  Except.ok ⟨rAvg, rMin, rMax, amAvg, amMin, amMax, asAvg, asMin, asMax⟩

/-- Python `str.lower` restricted to the ASCII range, as applied to the
CLI backend string in `executer = args.environment.lower()` (line 103). -/
def pyLower (s : String) : String := String.mk (s.data.map Char.toLower)

/-- Keys of the `SIMULATION_ENVIRONMENTS` registry (lines 27-30). -/
def SIMULATION_ENVIRONMENTS : List String :=
  ["rotatingCylinder2D", "rotatingPinball2D"]

/-- Backend dispatch of lines 103 and 127-139: the CLI string is
lowercased once and compared against the two known backend names; any
other value raises `ValueError`. -/
def selectBackend (environment : String) : Except Err Backend :=
  let executer := pyLower environment
  if executer = "local" then Except.ok Backend.localExec
  else if executer = "slurm" then Except.ok Backend.slurmExec
  else Except.error (Err.unknownExecuter executer)

/-- Name of the per-episode agent checkpoint file,
`f"checkpoint_{e}.pt"` (line 171). -/
def checkpointFileName (e : Nat) : String :=
  "checkpoint_" ++ toString e ++ ".pt"

/-- Name of the per-episode frozen policy file,
`f"policy_trace_{e}.pt"` (line 174). -/
def policyTraceFileName (e : Nat) : String :=
  "policy_trace_" ++ toString e ++ ".pt"

/-- State handed from the setup portion of `main` to the training loop:
the computed `starting_episode` and the driver-visible buffer state. -/
structure LoopStart where
  starting : Nat
  buffer : BufferState
deriving DecidableEq

/-- Events of the conditional base-case copy (lines 117-119): `copytree`
runs only when `<output>/base` does not already exist. -/
def copyEvs (ext : Extern) : List Ev :=
  if ext.baseExists then [] else [Ev.copyBase]

/-- Events of buffer construction per backend (lines 127-136): the
slurm branch additionally constructs a `SlurmConfig`. -/
def bufEvs : Backend → List Ev
  | Backend.localExec => [Ev.createLocalBuffer]
  | Backend.slurmExec => [Ev.createSlurmConfig, Ev.createSlurmBuffer]

/-- Events shared by every path that passes the simulation-name check:
the `makedirs` call (line 109, which creates the output directory
exactly when it does not already exist, `exist_ok=True`), the
conditional base copy, environment construction, and the
`check_finish_time` call. -/
def commonEvs (ext : Extern) : List Ev :=
  [Ev.makedirs (!ext.outputExists)] ++ copyEvs ext ++
    [Ev.createEnv, Ev.checkFinish]

/-- Setup portion of `main` (source lines 96-157): output directory
creation, simulation-name validation, base-case copy, environment and
buffer and agent construction, and the checkpoint-resume versus
fresh-start branch.  Note that `makedirs` (line 109) precedes the
simulation-name check (line 112).  The Python `if checkpoint_file:`
truthiness test is the emptiness test on the checkpoint string. -/
def preHandoff (args : Args) (ext : Extern) : List Ev × Except Err LoopStart :=
  if args.simulation ∈ SIMULATION_ENVIRONMENTS then
    if ext.finishTimeOk args.finish args.simulation = true then
      match selectBackend args.environment with
      | Except.error err => (commonEvs ext, Except.error err)
      | Except.ok b =>
        if args.checkpoint = "" then
          (commonEvs ext ++ bufEvs b ++
             [Ev.createAgent, Ev.createDummyPolicy, Ev.prepare],
           Except.ok ⟨0, ⟨ext.initNFills,
             ext.afterPrepare (ext.envInit args.simulation)⟩⟩)
        else
          match ext.historyEpisodes.getLast? with
          | none =>
            (commonEvs ext ++ bufEvs b ++ [Ev.createAgent, Ev.loadCheckpoint],
             Except.error Err.indexError)
          | some k =>
            (commonEvs ext ++ bufEvs b ++ [Ev.createAgent, Ev.loadCheckpoint],
             Except.ok ⟨k + 1, ⟨k + 1, ext.envInit args.simulation⟩⟩)
    else (commonEvs ext, Except.error Err.finishTimeError)
  else ([Ev.makedirs (!ext.outputExists)],
        Except.error (Err.unknownSimulation args.simulation))

/-- Lines 159-161 of the source: the time-window hand-off
(`start_time = end_time; end_time = finish`) followed by the pre-loop
`buffer.reset()`, applied after whichever setup branch ran. -/
def setupPhase (args : Args) (ext : Extern) : List Ev × Except Err LoopStart :=
  match preHandoff args ext with
  | (evs, Except.error err) => (evs, Except.error err)
  | (evs, Except.ok st) =>
    (evs ++ [Ev.setStartTime st.buffer.base_env.end_time,
             Ev.setEndTime args.finish, Ev.reset],
     Except.ok ⟨st.starting,
       ⟨st.buffer.n_fills, ⟨st.buffer.base_env.end_time, args.finish⟩⟩⟩)

/-- The events of one fully successful loop iteration (source lines
166-176), in program order: log, fill, read observations, statistics,
update, checkpoint save, policy trace, policy push, standalone policy
save, and — except after the final episode — the buffer reset. -/
def episodeEvents (ext : Extern) (episodes e : Nat) : List Ev :=
  [Ev.startEpisode e, Ev.fill e, Ev.readObs e, Ev.printStats e,
   Ev.update e (ext.obsAt e).states (ext.obsAt e).actions (ext.obsAt e).rewards,
   Ev.saveCheckpoint e, Ev.tracePolicy e, Ev.updatePolicy e, Ev.savePolicy e] ++
  (if e = episodes - 1 then [] else [Ev.reset])

/-- One loop iteration.  `print_statistics` is called after the fill and
the read of `buffer.observations`; if it raises (as it does on an empty
observation batch) the iteration aborts before `agent.update` and the
exception propagates. -/
def episodeStep (ext : Extern) (episodes e : Nat) : List Ev × Except Err Unit :=
  match print_statistics (ext.obsAt e).actions (ext.obsAt e).rewards with
  | Except.error err =>
    ([Ev.startEpisode e, Ev.fill e, Ev.readObs e], Except.error err)
  | Except.ok _ => (episodeEvents ext episodes e, Except.ok ())

/-- `for e in range(starting_episode, episodes)` by remaining iteration
count: `runLoop ext episodes e n` runs episodes `e, e+1, ..., e+n-1`,
stopping early if an iteration raises. -/
def runLoop (ext : Extern) (episodes : Nat) : Nat → Nat → List Ev × Except Err Unit
  | _, 0 => ([], Except.ok ())
  | e, n + 1 =>
    match episodeStep ext episodes e with
    | (evs, Except.error err) => (evs, Except.error err)
    | (evs, Except.ok _) =>
      let r := runLoop ext episodes (e + 1) n
      (evs ++ r.1, r.2)

/-- The whole driver `main`: setup followed by the training loop over
`range(starting_episode, episodes)`. -/
def mainRun (args : Args) (ext : Extern) : List Ev × Except Err Unit :=
  match setupPhase args ext with
  | (evs, Except.error err) => (evs, Except.error err)
  | (evs, Except.ok st) =>
    let r := runLoop ext args.iter st.starting (args.iter - st.starting)
    (evs ++ r.1, r.2)

/-- Events that the setup portion of the driver can emit. -/
def setupEv : Ev → Bool
  | Ev.makedirs _ => true
  | Ev.copyBase => true
  | Ev.createEnv => true
  | Ev.checkFinish => true
  | Ev.createLocalBuffer => true
  | Ev.createSlurmConfig => true
  | Ev.createSlurmBuffer => true
  | Ev.createAgent => true
  | Ev.loadCheckpoint => true
  | Ev.createDummyPolicy => true
  | Ev.prepare => true
  | _ => false

/-- Events that the training loop can emit. -/
def loopEv : Ev → Bool
  | Ev.startEpisode _ => true
  | Ev.fill _ => true
  | Ev.readObs _ => true
  | Ev.printStats _ => true
  | Ev.update _ _ _ _ => true
  | Ev.saveCheckpoint _ => true
  | Ev.tracePolicy _ => true
  | Ev.updatePolicy _ => true
  | Ev.savePolicy _ => true
  | Ev.reset => true
  | _ => false

/-- Events that create a directory on the filesystem: an actually
creating `makedirs`, the base-case `copytree`, and `buffer.prepare()`
(which materializes the trial directories, spec section 4.3). -/
def createsDir : Ev → Bool
  | Ev.makedirs created => created
  | Ev.copyBase => true
  | Ev.prepare => true
  | _ => false

/-- The episode index recorded by a checkpoint-save event, if any. -/
def chkIdx : Ev → Option Nat
  | Ev.saveCheckpoint e => some e
  | _ => none

/-- The episode index recorded by a standalone policy-save event. -/
def polIdx : Ev → Option Nat
  | Ev.savePolicy e => some e
  | _ => none

/-- Episode indices of all agent-checkpoint writes in a trace, in
order. -/
def checkpointIndices (evs : List Ev) : List Nat := evs.filterMap chkIdx

/-- Episode indices of all standalone policy writes in a trace. -/
def policyIndices (evs : List Ev) : List Nat := evs.filterMap polIdx

/-- File names of all agent-checkpoint writes in a trace, in order. -/
def checkpointFiles (evs : List Ev) : List String :=
  (checkpointIndices evs).map checkpointFileName

/-- File names of all standalone policy writes in a trace, in order. -/
def policyFiles (evs : List Ev) : List String :=
  (policyIndices evs).map policyTraceFileName

/-- The fill of episode `e` produced an observation batch on which
`print_statistics` succeeds. -/
def statsOk (ext : Extern) (e : Nat) : Prop :=
  ∃ st, print_statistics (ext.obsAt e).actions (ext.obsAt e).rewards =
    Except.ok st

/-- A sample observation batch with one successful trajectory. -/
def sampleObs : Obs := ⟨[⟨0, 0⟩], [⟨1/2, 1/10⟩], [⟨2, 0⟩]⟩

/-- Sample external world: fresh filesystem, base case ending at time 4,
a three-episode checkpoint history, every fill yielding `sampleObs`. -/
def extSample : Extern :=
  ⟨false, false, fun _ => ⟨0, 4⟩, id, 0, [0, 1, 2], fun _ => sampleObs,
   fun _ _ => true⟩

/-- Sample external world whose fills yield zero trajectories. -/
def extEmpty : Extern :=
  ⟨false, false, fun _ => ⟨0, 4⟩, id, 0, [0, 1, 2], fun _ => ⟨[], [], []⟩,
   fun _ _ => true⟩

/-- A fresh two-episode local run. -/
def argsLocal : Args :=
  ⟨"run", "local", 2, 4, 8, 8, 1000000000000000, "", "rotatingCylinder2D"⟩

/-- The same run resumed from a checkpoint file. -/
def argsResume : Args := {argsLocal with checkpoint := "checkpoint_2.pt"}

/-- The same run with an unknown simulation name. -/
def argsFoo : Args := {argsLocal with simulation := "foo"}

/-- The same run with an unknown backend name. -/
def argsBadExec : Args := {argsLocal with environment := "pbs"}

/-- Unknown simulation name: the only event before the raise is the
`makedirs` call. -/
theorem preHandoff_unknown_sim (args : Args) (ext : Extern)
    (hs : args.simulation ∉ SIMULATION_ENVIRONMENTS) :
    preHandoff args ext = ([Ev.makedirs (!ext.outputExists)],
      Except.error (Err.unknownSimulation args.simulation)) := by
  unfold preHandoff
  rw [if_neg hs]

/-- Failing finish-time check: the run stops after the common setup
events. -/
theorem preHandoff_bad_finish (args : Args) (ext : Extern)
    (hs : args.simulation ∈ SIMULATION_ENVIRONMENTS)
    (hf : ¬ ext.finishTimeOk args.finish args.simulation = true) :
    preHandoff args ext = (commonEvs ext, Except.error Err.finishTimeError) := by
  unfold preHandoff
  rw [if_pos hs, if_neg hf]

/-- Unknown backend: the run stops after the common setup events with
the backend error; no buffer or agent construction event occurs. -/
theorem preHandoff_bad_exec (args : Args) (ext : Extern) (err : Err)
    (hs : args.simulation ∈ SIMULATION_ENVIRONMENTS)
    (hf : ext.finishTimeOk args.finish args.simulation = true)
    (hb : selectBackend args.environment = Except.error err) :
    preHandoff args ext = (commonEvs ext, Except.error err) := by
  unfold preHandoff
  rw [if_pos hs, if_pos hf, hb]

/-- Fresh start (empty checkpoint string): the dummy policy is created,
`prepare()` runs, and the loop starts at episode 0 with the buffer's
constructor-time fill counter. -/
theorem preHandoff_fresh (args : Args) (ext : Extern) (b : Backend)
    (hs : args.simulation ∈ SIMULATION_ENVIRONMENTS)
    (hf : ext.finishTimeOk args.finish args.simulation = true)
    (hb : selectBackend args.environment = Except.ok b)
    (hc : args.checkpoint = "") :
    preHandoff args ext =
      (commonEvs ext ++ bufEvs b ++
         [Ev.createAgent, Ev.createDummyPolicy, Ev.prepare],
       Except.ok ⟨0, ⟨ext.initNFills,
         ext.afterPrepare (ext.envInit args.simulation)⟩⟩) := by
  unfold preHandoff
  rw [if_pos hs, if_pos hf]
  simp only [hb, hc, if_true, reduceIte]

/-- Resume from a checkpoint whose last recorded episode is `k`: the
checkpoint is loaded, `starting_episode` and `_n_fills` are both set to
`k + 1`, and neither the dummy policy nor `prepare()` runs. -/
theorem preHandoff_resume (args : Args) (ext : Extern) (b : Backend) (k : Nat)
    (hs : args.simulation ∈ SIMULATION_ENVIRONMENTS)
    (hf : ext.finishTimeOk args.finish args.simulation = true)
    (hb : selectBackend args.environment = Except.ok b)
    (hc : ¬ args.checkpoint = "")
    (hh : ext.historyEpisodes.getLast? = some k) :
    preHandoff args ext =
      (commonEvs ext ++ bufEvs b ++ [Ev.createAgent, Ev.loadCheckpoint],
       Except.ok ⟨k + 1, ⟨k + 1, ext.envInit args.simulation⟩⟩) := by
  unfold preHandoff
  rw [if_pos hs, if_pos hf]
  simp only [hb, hc, hh, if_false, reduceIte]

/-- Resume with an empty episode history: the `[-1]` access raises. -/
theorem preHandoff_resume_empty (args : Args) (ext : Extern) (b : Backend)
    (hs : args.simulation ∈ SIMULATION_ENVIRONMENTS)
    (hf : ext.finishTimeOk args.finish args.simulation = true)
    (hb : selectBackend args.environment = Except.ok b)
    (hc : ¬ args.checkpoint = "")
    (hh : ext.historyEpisodes.getLast? = none) :
    preHandoff args ext =
      (commonEvs ext ++ bufEvs b ++ [Ev.createAgent, Ev.loadCheckpoint],
       Except.error Err.indexError) := by
  unfold preHandoff
  rw [if_pos hs, if_pos hf]
  simp only [hb, hc, hh, if_false, reduceIte]

/-- A setup error passes unchanged through the hand-off phase. -/
theorem setupPhase_error (args : Args) (ext : Extern) (evs : List Ev) (err : Err)
    (h : preHandoff args ext = (evs, Except.error err)) :
    setupPhase args ext = (evs, Except.error err) := by
  unfold setupPhase
  rw [h]

/-- Successful setup: the hand-off appends exactly the two time-window
writes followed by the pre-loop reset, sets the base environment's
start time to its previous end time and its end time to the CLI finish
value, and leaves `starting_episode` and `_n_fills` unchanged. -/
theorem setupPhase_ok (args : Args) (ext : Extern) (evs : List Ev) (st : LoopStart)
    (h : preHandoff args ext = (evs, Except.ok st)) :
    setupPhase args ext =
      (evs ++ [Ev.setStartTime st.buffer.base_env.end_time,
               Ev.setEndTime args.finish, Ev.reset],
       Except.ok ⟨st.starting,
         ⟨st.buffer.n_fills, ⟨st.buffer.base_env.end_time, args.finish⟩⟩⟩) := by
  unfold setupPhase
  rw [h]

/-- A setup error passes unchanged through `mainRun`. -/
theorem mainRun_error (args : Args) (ext : Extern) (evs : List Ev) (err : Err)
    (h : setupPhase args ext = (evs, Except.error err)) :
    mainRun args ext = (evs, Except.error err) := by
  unfold mainRun
  rw [h]

/-- After a successful setup, `mainRun` appends the training-loop trace
and returns its outcome. -/
theorem mainRun_ok (args : Args) (ext : Extern) (evs : List Ev) (st : LoopStart)
    (h : setupPhase args ext = (evs, Except.ok st)) :
    mainRun args ext =
      (evs ++ (runLoop ext args.iter st.starting (args.iter - st.starting)).1,
       (runLoop ext args.iter st.starting (args.iter - st.starting)).2) := by
  unfold mainRun
  rw [h]

/-- `print_statistics` on an empty reward list stops with a
`ZeroDivisionError` at the `sum(rt) / len(rt)` of the first message. -/
theorem print_statistics_nil (actions : List Tensor) :
    print_statistics actions [] = Except.error Err.zeroDivisionError := rfl

/-- A successful statistics call makes the iteration emit exactly the
episode event sequence. -/
theorem episodeStep_ok (ext : Extern) (episodes e : Nat) (st : Stats)
    (h : print_statistics (ext.obsAt e).actions (ext.obsAt e).rewards =
      Except.ok st) :
    episodeStep ext episodes e = (episodeEvents ext episodes e, Except.ok ()) := by
  unfold episodeStep
  rw [h]

/-- A failing statistics call aborts the iteration after the fill and
the observation read, before `agent.update`. -/
theorem episodeStep_err (ext : Extern) (episodes e : Nat) (err : Err)
    (h : print_statistics (ext.obsAt e).actions (ext.obsAt e).rewards =
      Except.error err) :
    episodeStep ext episodes e =
      ([Ev.startEpisode e, Ev.fill e, Ev.readObs e], Except.error err) := by
  unfold episodeStep
  rw [h]

/-- Unfolding lemma: a successful iteration is followed by the rest of
the loop. -/
theorem runLoop_succ_ok (ext : Extern) (episodes e n : Nat) (evs : List Ev)
    (h : episodeStep ext episodes e = (evs, Except.ok ())) :
    runLoop ext episodes e (n + 1) =
      (evs ++ (runLoop ext episodes (e + 1) n).1,
       (runLoop ext episodes (e + 1) n).2) := by
  conv_lhs => rw [runLoop]
  rw [h]

/-- Unfolding lemma: a failing iteration ends the loop with its error. -/
theorem runLoop_succ_err (ext : Extern) (episodes e n : Nat) (evs : List Ev)
    (err : Err) (h : episodeStep ext episodes e = (evs, Except.error err)) :
    runLoop ext episodes e (n + 1) = (evs, Except.error err) := by
  conv_lhs => rw [runLoop]
  rw [h]

/-- Every event of the conditional base copy is a setup event. -/
theorem mem_copyEvs (ext : Extern) (ev : Ev) (h : ev ∈ copyEvs ext) :
    setupEv ev = true := by
  by_cases hb : ext.baseExists <;> simp [copyEvs, hb] at h
  subst h
  rfl

/-- Every buffer-construction event is a setup event. -/
theorem mem_bufEvs (b : Backend) (ev : Ev) (h : ev ∈ bufEvs b) :
    setupEv ev = true := by
  cases b
  · simp [bufEvs] at h
    subst h
    rfl
  · simp [bufEvs] at h
    rcases h with rfl | rfl <;> rfl

/-- Every common setup event is a setup event. -/
theorem mem_commonEvs (ext : Extern) (ev : Ev) (h : ev ∈ commonEvs ext) :
    setupEv ev = true := by
  simp only [commonEvs, List.mem_append, List.mem_cons,
    List.not_mem_nil, or_false] at h
  rcases h with (rfl | h) | rfl | rfl
  · rfl
  · exact mem_copyEvs ext ev h
  · rfl
  · rfl

/-- Every event emitted before the time-window hand-off is a setup
event: the setup portion of the driver emits no fill, reset, update,
checkpoint or policy event. -/
theorem preHandoff_mem (args : Args) (ext : Extern) (ev : Ev)
    (h : ev ∈ (preHandoff args ext).1) : setupEv ev = true := by
  by_cases hs : args.simulation ∈ SIMULATION_ENVIRONMENTS
  · by_cases hf : ext.finishTimeOk args.finish args.simulation = true
    · cases hb : selectBackend args.environment with
      | error err =>
        rw [preHandoff_bad_exec args ext err hs hf hb] at h
        exact mem_commonEvs ext ev h
      | ok b =>
        by_cases hc : args.checkpoint = ""
        · rw [preHandoff_fresh args ext b hs hf hb hc] at h
          simp only [List.append_assoc, List.mem_append, List.mem_cons,
            List.not_mem_nil, or_false] at h
          rcases h with h | h | rfl | rfl | rfl
          · exact mem_commonEvs ext ev h
          · exact mem_bufEvs b ev h
          · rfl
          · rfl
          · rfl
        · cases hh : ext.historyEpisodes.getLast? with
          | none =>
            rw [preHandoff_resume_empty args ext b hs hf hb hc hh] at h
            simp only [List.append_assoc, List.mem_append, List.mem_cons,
              List.not_mem_nil, or_false] at h
            rcases h with h | h | rfl | rfl
            · exact mem_commonEvs ext ev h
            · exact mem_bufEvs b ev h
            · rfl
            · rfl
          | some k =>
            rw [preHandoff_resume args ext b k hs hf hb hc hh] at h
            simp only [List.append_assoc, List.mem_append, List.mem_cons,
              List.not_mem_nil, or_false] at h
            rcases h with h | h | rfl | rfl
            · exact mem_commonEvs ext ev h
            · exact mem_bufEvs b ev h
            · rfl
            · rfl
    · rw [preHandoff_bad_finish args ext hs hf] at h
      exact mem_commonEvs ext ev h
  · rw [preHandoff_unknown_sim args ext hs] at h
    simp at h
    subst h
    rfl

/-- Every event emitted by the setup phase is a setup event or one of
the three hand-off actions. -/
theorem setupPhase_mem (args : Args) (ext : Extern) (ev : Ev)
    (h : ev ∈ (setupPhase args ext).1) :
    setupEv ev = true ∨ ev = Ev.reset ∨ (∃ t, ev = Ev.setStartTime t) ∨
      (∃ t, ev = Ev.setEndTime t) := by
  rcases hP : preHandoff args ext with ⟨evs, r⟩
  have hevs : (preHandoff args ext).1 = evs := by rw [hP]
  cases r with
  | error err =>
    rw [setupPhase_error args ext evs err hP] at h
    exact Or.inl (preHandoff_mem args ext ev (hevs ▸ h))
  | ok st =>
    rw [setupPhase_ok args ext evs st hP] at h
    simp only [List.mem_append, List.mem_cons, List.not_mem_nil, or_false] at h
    rcases h with h | rfl | rfl | rfl
    · exact Or.inl (preHandoff_mem args ext ev (hevs ▸ h))
    · exact Or.inr (Or.inr (Or.inl ⟨_, rfl⟩))
    · exact Or.inr (Or.inr (Or.inr ⟨_, rfl⟩))
    · exact Or.inr (Or.inl rfl)

/-- Every event of a successful episode block is a loop event. -/
theorem mem_episodeEvents (ext : Extern) (episodes e : Nat) (ev : Ev)
    (h : ev ∈ episodeEvents ext episodes e) : loopEv ev = true := by
  by_cases he : e = episodes - 1
  · simp [episodeEvents, he] at h
    rcases h with rfl | rfl | rfl | rfl | rfl | rfl | rfl | rfl | rfl <;> rfl
  · simp [episodeEvents, he] at h
    rcases h with rfl | rfl | rfl | rfl | rfl | rfl | rfl | rfl | rfl | rfl <;>
      rfl

/-- Every event of one loop iteration is a loop event. -/
theorem episodeStep_mem (ext : Extern) (episodes e : Nat) (ev : Ev)
    (h : ev ∈ (episodeStep ext episodes e).1) : loopEv ev = true := by
  cases hst : print_statistics (ext.obsAt e).actions (ext.obsAt e).rewards with
  | error err =>
    rw [episodeStep_err ext episodes e err hst] at h
    simp at h
    rcases h with rfl | rfl | rfl <;> rfl
  | ok st =>
    rw [episodeStep_ok ext episodes e st hst] at h
    exact mem_episodeEvents ext episodes e ev h

/-- Every event of the training loop is a loop event. -/
theorem runLoop_mem (ext : Extern) (episodes : Nat) :
    ∀ n e ev, ev ∈ (runLoop ext episodes e n).1 → loopEv ev = true := by
  intro n
  induction n with
  | zero =>
    intro e ev h
    simp [runLoop] at h
  | succ n ih =>
    intro e ev h
    rcases hst : episodeStep ext episodes e with ⟨evs, r⟩
    cases r with
    | error err =>
      rw [runLoop_succ_err ext episodes e n evs err hst] at h
      have hevs : (episodeStep ext episodes e).1 = evs := by rw [hst]
      exact episodeStep_mem ext episodes e ev (hevs ▸ h)
    | ok u =>
      cases u
      rw [runLoop_succ_ok ext episodes e n evs hst] at h
      rcases List.mem_append.1 h with h | h
      · have hevs : (episodeStep ext episodes e).1 = evs := by rw [hst]
        exact episodeStep_mem ext episodes e ev (hevs ▸ h)
      · exact ih (e + 1) ev h

/-- When every episode's statistics succeed, the loop trace is exactly
the concatenation of the per-episode event blocks, in episode order,
and the loop returns normally. -/
theorem runLoop_flatten (ext : Extern) (episodes : Nat)
    (h : ∀ e, statsOk ext e) :
    ∀ n s, runLoop ext episodes s n =
      (((List.range' s n).map (episodeEvents ext episodes)).flatten,
       Except.ok ()) := by
  intro n
  induction n with
  | zero => intro s; rfl
  | succ n ih =>
    intro s
    obtain ⟨st, hst⟩ := h s
    rw [runLoop_succ_ok ext episodes s n _ (episodeStep_ok ext episodes s st hst),
      ih (s + 1)]
    have hr : List.range' s (n + 1) = s :: List.range' (s + 1) n := rfl
    rw [hr]
    simp

/-- A successful episode block contains exactly one reset, except the
final episode's block, which contains none. -/
theorem episodeEvents_count_reset (ext : Extern) (episodes e : Nat) :
    (episodeEvents ext episodes e).count Ev.reset =
      if e = episodes - 1 then 0 else 1 := by
  by_cases he : e = episodes - 1 <;> simp [episodeEvents, he]

/-- When every episode succeeds and the loop covers episodes
`s, ..., episodes - 1`, the loop trace contains exactly `n - 1` resets:
one after each episode except the final one. -/
theorem runLoop_count_reset (ext : Extern) (episodes : Nat)
    (h : ∀ e, statsOk ext e) :
    ∀ n s, s + n = episodes →
      ((runLoop ext episodes s n).1.count Ev.reset) = n - 1 := by
  intro n
  induction n with
  | zero => intro s _; simp [runLoop]
  | succ n ih =>
    intro s hs
    obtain ⟨st, hst⟩ := h s
    rw [runLoop_succ_ok ext episodes s n _ (episodeStep_ok ext episodes s st hst)]
    simp only [List.count_append]
    rw [episodeEvents_count_reset]
    rcases Nat.eq_zero_or_pos n with rfl | hn
    · have he : s = episodes - 1 := by omega
      rw [if_pos he]
      simp [runLoop]
    · have he : ¬ s = episodes - 1 := by omega
      rw [if_neg he, ih (s + 1) (by omega)]
      omega

/-- A successful episode block writes exactly one agent checkpoint,
with the episode's own index. -/
theorem checkpointIndices_episodeEvents (ext : Extern) (episodes e : Nat) :
    checkpointIndices (episodeEvents ext episodes e) = [e] := by
  by_cases he : e = episodes - 1 <;>
    simp [checkpointIndices, episodeEvents, he, chkIdx]

/-- A successful episode block writes exactly one standalone policy
file, with the episode's own index. -/
theorem policyIndices_episodeEvents (ext : Extern) (episodes e : Nat) :
    policyIndices (episodeEvents ext episodes e) = [e] := by
  by_cases he : e = episodes - 1 <;>
    simp [policyIndices, episodeEvents, he, polIdx]

/-- When every episode succeeds, the loop over episodes `s, ..., s+n-1`
writes agent checkpoints exactly for those indices, in increasing
order. -/
theorem runLoop_checkpointIndices (ext : Extern) (episodes : Nat)
    (h : ∀ e, statsOk ext e) :
    ∀ n s, checkpointIndices (runLoop ext episodes s n).1 = List.range' s n := by
  intro n
  induction n with
  | zero => intro s; rfl
  | succ n ih =>
    intro s
    obtain ⟨st, hst⟩ := h s
    rw [runLoop_succ_ok ext episodes s n _ (episodeStep_ok ext episodes s st hst)]
    have hr : List.range' s (n + 1) = s :: List.range' (s + 1) n := rfl
    have h1 := checkpointIndices_episodeEvents ext episodes s
    have h2 := ih (s + 1)
    simp only [checkpointIndices] at h1 h2 ⊢
    rw [hr, List.filterMap_append, h1, h2]
    rfl

/-- When every episode succeeds, the loop over episodes `s, ..., s+n-1`
writes standalone policy files exactly for those indices, in increasing
order. -/
theorem runLoop_policyIndices (ext : Extern) (episodes : Nat)
    (h : ∀ e, statsOk ext e) :
    ∀ n s, policyIndices (runLoop ext episodes s n).1 = List.range' s n := by
  intro n
  induction n with
  | zero => intro s; rfl
  | succ n ih =>
    intro s
    obtain ⟨st, hst⟩ := h s
    rw [runLoop_succ_ok ext episodes s n _ (episodeStep_ok ext episodes s st hst)]
    have hr : List.range' s (n + 1) = s :: List.range' (s + 1) n := rfl
    have h1 := policyIndices_episodeEvents ext episodes s
    have h2 := ih (s + 1)
    simp only [policyIndices] at h1 h2 ⊢
    rw [hr, List.filterMap_append, h1, h2]
    rfl

/-- Setup and hand-off events record no checkpoint or policy write. -/
theorem chkIdx_polIdx_none (ev : Ev)
    (h : setupEv ev = true ∨ ev = Ev.reset ∨ (∃ t, ev = Ev.setStartTime t) ∨
      (∃ t, ev = Ev.setEndTime t)) :
    chkIdx ev = none ∧ polIdx ev = none := by
  cases ev <;>
    first
      | exact ⟨rfl, rfl⟩
      | (exfalso
         rcases h with h | h | ⟨t, h⟩ | ⟨t, h⟩ <;> simp [setupEv] at h)

/-- The setup phase writes no checkpoint and no standalone policy
file. -/
theorem setupPhase_no_files (args : Args) (ext : Extern) :
    checkpointIndices (setupPhase args ext).1 = [] ∧
      policyIndices (setupPhase args ext).1 = [] := by
  constructor
  · simp only [checkpointIndices]
    rw [List.filterMap_eq_nil_iff]
    intro ev h
    exact (chkIdx_polIdx_none ev (setupPhase_mem args ext ev h)).1
  · simp only [policyIndices]
    rw [List.filterMap_eq_nil_iff]
    intro ev h
    exact (chkIdx_polIdx_none ev (setupPhase_mem args ext ev h)).2

/-- The only update event in an episode block carries the block's own
episode index and exactly the observation triple of that episode's
fill. -/
theorem update_mem_episodeEvents (ext : Extern) (episodes s e : Nat)
    (stx ax rx : List Tensor)
    (h : Ev.update e stx ax rx ∈ episodeEvents ext episodes s) :
    e = s ∧ stx = (ext.obsAt s).states ∧ ax = (ext.obsAt s).actions ∧
      rx = (ext.obsAt s).rewards := by
  by_cases he : s = episodes - 1
  · subst he
    simp [episodeEvents] at h
    tauto
  · simp [episodeEvents, he] at h
    tauto

/-- An episode whose fill produced an empty reward list makes
`print_statistics` raise, so the iteration stops before `agent.update`
with a `ZeroDivisionError`. -/
theorem episodeStep_empty (ext : Extern) (episodes e : Nat)
    (hE : (ext.obsAt e).rewards = []) :
    episodeStep ext episodes e =
      ([Ev.startEpisode e, Ev.fill e, Ev.readObs e],
       Except.error Err.zeroDivisionError) := by
  apply episodeStep_err
  rw [hE]
  exact print_statistics_nil (ext.obsAt e).actions

/-- If episode `e` yields an empty observation batch, no update event
for episode `e` ever occurs in any run of the training loop. -/
theorem runLoop_no_update_empty (ext : Extern) (episodes e : Nat)
    (hE : (ext.obsAt e).rewards = []) :
    ∀ n s stx ax rx, Ev.update e stx ax rx ∉ (runLoop ext episodes s n).1 := by
  intro n
  induction n with
  | zero =>
    intro s stx ax rx h
    simp [runLoop] at h
  | succ n ih =>
    intro s stx ax rx h
    cases hst : print_statistics (ext.obsAt s).actions (ext.obsAt s).rewards with
    | error err =>
      rw [runLoop_succ_err ext episodes s n _ err
        (episodeStep_err ext episodes s err hst)] at h
      simp at h
    | ok st =>
      rw [runLoop_succ_ok ext episodes s n _
        (episodeStep_ok ext episodes s st hst)] at h
      rcases List.mem_append.1 h with h | h
      · obtain ⟨rfl, -, -, -⟩ := update_mem_episodeEvents ext episodes s e
          stx ax rx h
        rw [hE, print_statistics_nil] at hst
        cases hst
      · exact ih (s + 1) stx ax rx h

/-- If episode `e` yields an empty observation batch, no update event
for episode `e` occurs anywhere in a whole driver run. -/
theorem mainRun_no_update_empty (args : Args) (ext : Extern) (e : Nat)
    (hE : (ext.obsAt e).rewards = []) :
    ∀ stx ax rx, Ev.update e stx ax rx ∉ (mainRun args ext).1 := by
  intro stx ax rx h
  rcases hS : setupPhase args ext with ⟨evs, r⟩
  have hevs : (setupPhase args ext).1 = evs := by rw [hS]
  cases r with
  | error err =>
    rw [mainRun_error args ext evs err hS] at h
    have := setupPhase_mem args ext _ (hevs ▸ h)
    rcases this with h1 | h1 | ⟨t, h1⟩ | ⟨t, h1⟩ <;> simp [setupEv] at h1
  | ok st =>
    rw [mainRun_ok args ext evs st hS] at h
    rcases List.mem_append.1 h with h | h
    · have := setupPhase_mem args ext _ (hevs ▸ h)
      rcases this with h1 | h1 | ⟨t, h1⟩ | ⟨t, h1⟩ <;> simp [setupEv] at h1
    · exact runLoop_no_update_empty ext args.iter e hE _ _ stx ax rx h

/-- The common setup events contain neither `prepare` nor the dummy
policy creation. -/
theorem commonEvs_no_fresh (ext : Extern) :
    Ev.prepare ∉ commonEvs ext ∧ Ev.createDummyPolicy ∉ commonEvs ext := by
  by_cases hb : ext.baseExists <;> simp [commonEvs, copyEvs, hb]

/-- The buffer-construction events contain neither `prepare` nor the
dummy policy creation. -/
theorem bufEvs_no_fresh (b : Backend) :
    Ev.prepare ∉ bufEvs b ∧ Ev.createDummyPolicy ∉ bufEvs b := by
  cases b <;> simp [bufEvs]

/-- Claim C1 (resume correctness): for every run started with a
non-empty checkpoint path whose loaded agent history records episode
`k` as the last entry (and a valid simulation, finish time and
backend), the driver enters the training loop with
`starting_episode = k + 1` and the buffer's internal fill counter
`_n_fills = k + 1`, and the whole run never calls `buffer.prepare()`
and never creates a fresh dummy policy. -/
theorem claim_C1_resume_correctness (args : Args) (ext : Extern)
    (k : Nat) (b : Backend)
    (hc : ¬ args.checkpoint = "")
    (hh : ext.historyEpisodes.getLast? = some k)
    (hs : args.simulation ∈ SIMULATION_ENVIRONMENTS)
    (hf : ext.finishTimeOk args.finish args.simulation = true)
    (hb : selectBackend args.environment = Except.ok b) :
    (∃ evs st, setupPhase args ext = (evs, Except.ok st) ∧
       st.starting = k + 1 ∧ st.buffer.n_fills = k + 1) ∧
    Ev.prepare ∉ (mainRun args ext).1 ∧
    Ev.createDummyPolicy ∉ (mainRun args ext).1 := by
  have hP := preHandoff_resume args ext b k hs hf hb hc hh
  have hS := setupPhase_ok args ext _ _ hP
  have hM := mainRun_ok args ext _ _ hS
  refine ⟨⟨_, _, hS, rfl, rfl⟩, ?_, ?_⟩ <;>
  · intro hmem
    rw [hM] at hmem
    rcases List.mem_append.1 hmem with h | h
    · rcases List.mem_append.1 h with h | h
      · rcases List.mem_append.1 h with h | h
        · rcases List.mem_append.1 h with h | h
          · first
              | exact (commonEvs_no_fresh ext).1 h
              | exact (commonEvs_no_fresh ext).2 h
          · first
              | exact (bufEvs_no_fresh b).1 h
              | exact (bufEvs_no_fresh b).2 h
        · simp at h
      · simp at h
    · have := runLoop_mem ext args.iter _ _ _ h
      simp [loopEv] at this

/-- Witness for C1 at a concrete resumed run: last recorded episode 2
yields loop entry at episode 3 with fill counter 3 and no fresh-start
actions. -/
theorem claim_C1_witness :
    (∃ evs st, setupPhase argsResume extSample = (evs, Except.ok st) ∧
       st.starting = 3 ∧ st.buffer.n_fills = 3) ∧
    Ev.prepare ∉ (mainRun argsResume extSample).1 ∧
    Ev.createDummyPolicy ∉ (mainRun argsResume extSample).1 :=
  claim_C1_resume_correctness argsResume extSample 2 Backend.localExec
    (by decide) (by decide) (by decide) rfl rfl

/-- Counterexample to claim C2 as stated: on a fresh filesystem, a run
with the unknown simulation name "foo" does raise the configuration
error, but only after `makedirs` has already created the top-level
output directory — so it is not the case that no directory is created
before the error. -/
theorem claim_C2_counterexample :
    (mainRun argsFoo extSample).2 =
      Except.error (Err.unknownSimulation "foo") ∧
    ¬ (∀ ev ∈ (mainRun argsFoo extSample).1, createsDir ev = false) := by
  constructor
  · rfl
  · decide

/-- Claim C2 as amended: for every run with an unknown simulation name,
the configuration error is raised before the base case is copied and
before any environment, buffer, agent, trial preparation or fill — the
only prior action is the `makedirs` call on the output directory, which
creates that directory exactly when it does not already exist. -/
theorem claim_C2_amended (args : Args) (ext : Extern)
    (hs : args.simulation ∉ SIMULATION_ENVIRONMENTS) :
    mainRun args ext =
      ([Ev.makedirs (!ext.outputExists)],
       Except.error (Err.unknownSimulation args.simulation)) ∧
    Ev.copyBase ∉ (mainRun args ext).1 ∧
    Ev.prepare ∉ (mainRun args ext).1 ∧
    Ev.createEnv ∉ (mainRun args ext).1 ∧
    Ev.createLocalBuffer ∉ (mainRun args ext).1 ∧
    Ev.createSlurmBuffer ∉ (mainRun args ext).1 ∧
    Ev.createAgent ∉ (mainRun args ext).1 ∧
    (∀ e, Ev.fill e ∉ (mainRun args ext).1) := by
  have hM := mainRun_error args ext _ _ (setupPhase_error args ext _ _
    (preHandoff_unknown_sim args ext hs))
  rw [hM]
  simp

/-- Witness for the amended C2 at the concrete unknown-name run. -/
theorem claim_C2_amended_witness :
    mainRun argsFoo extSample =
      ([Ev.makedirs true], Except.error (Err.unknownSimulation "foo")) :=
  (claim_C2_amended argsFoo extSample (by decide)).1

/-- Claim C3 (episode sequencing): when every episode's observation
batch is well-formed, the training loop over episodes
`s, ..., s + n - 1` emits exactly the per-episode blocks in order; each
block performs fill, observation read, statistics, update with exactly
the observation triple, checkpoint save, policy trace, policy push and
standalone policy save in this order — in particular the checkpoint
write of episode `e` precedes the policy push of episode `e`. -/
theorem claim_C3_episode_sequencing (ext : Extern) (episodes s n : Nat)
    (h : ∀ e, statsOk ext e) :
    runLoop ext episodes s n =
      (((List.range' s n).map (episodeEvents ext episodes)).flatten,
       Except.ok ()) ∧
    (∀ e st, print_statistics (ext.obsAt e).actions (ext.obsAt e).rewards =
        Except.ok st →
      episodeStep ext episodes e =
        (episodeEvents ext episodes e, Except.ok ())) ∧
    (∀ e, ∃ l1 l2, episodeEvents ext episodes e =
      [Ev.startEpisode e, Ev.fill e, Ev.readObs e, Ev.printStats e,
       Ev.update e (ext.obsAt e).states (ext.obsAt e).actions
         (ext.obsAt e).rewards,
       Ev.saveCheckpoint e] ++ l1 ++ [Ev.updatePolicy e] ++ l2) := by
  refine ⟨runLoop_flatten ext episodes h n s,
    fun e st hst => episodeStep_ok ext episodes e st hst,
    fun e => ⟨[Ev.tracePolicy e],
      [Ev.savePolicy e] ++ (if e = episodes - 1 then [] else [Ev.reset]),
      by simp [episodeEvents]⟩⟩

/-- Witness for C3 at a concrete fully successful two-episode loop. -/
theorem claim_C3_witness :
    runLoop extSample 2 0 2 =
      (((List.range' 0 2).map (episodeEvents extSample 2)).flatten,
       Except.ok ()) :=
  (claim_C3_episode_sequencing extSample 2 0 2 (fun _ => ⟨_, rfl⟩)).1

/-- Claim C4 (total fill failure): whenever a completed fill yields
zero successful trajectories (all observation sequences empty), the
iteration raises before `agent.update` — the error surfaces as the loop
result — and no update event for that episode occurs in any loop run or
in any whole driver run, so `agent.update` is never called with zero
samples. -/
theorem claim_C4_total_fill_failure (ext : Extern) (episodes e : Nat)
    (hSt : (ext.obsAt e).states = [])
    (hA : (ext.obsAt e).actions = [])
    (hR : (ext.obsAt e).rewards = []) :
    episodeStep ext episodes e =
      ([Ev.startEpisode e, Ev.fill e, Ev.readObs e],
       Except.error Err.zeroDivisionError) ∧
    (∀ n s stx ax rx, Ev.update e stx ax rx ∉ (runLoop ext episodes s n).1) ∧
    (∀ n, (runLoop ext episodes e (n + 1)).2 =
      Except.error Err.zeroDivisionError) ∧
    (∀ args stx ax rx, Ev.update e stx ax rx ∉ (mainRun args ext).1) := by
  refine ⟨episodeStep_empty ext episodes e hR,
    runLoop_no_update_empty ext episodes e hR,
    fun n => ?_,
    fun args stx ax rx => mainRun_no_update_empty args ext e hR stx ax rx⟩
  rw [runLoop_succ_err ext episodes e n _ _ (episodeStep_empty ext episodes e hR)]

/-- Witness for C4 at a concrete empty-batch episode. -/
theorem claim_C4_witness :
    episodeStep extEmpty 2 0 =
      ([Ev.startEpisode 0, Ev.fill 0, Ev.readObs 0],
       Except.error Err.zeroDivisionError) :=
  (claim_C4_total_fill_failure extEmpty 2 0 rfl rfl rfl).1

/-- Claim C5 (unknown backend): for every run whose lowered backend
string is neither "local" nor "slurm" (and whose earlier configuration
checks pass), the driver raises the backend configuration error, and
the trace contains no buffer construction, no agent construction and no
fill — the error precedes any trial launch and any buffer or agent
construction. -/
theorem claim_C5_unknown_backend (args : Args) (ext : Extern)
    (hs : args.simulation ∈ SIMULATION_ENVIRONMENTS)
    (hf : ext.finishTimeOk args.finish args.simulation = true)
    (h1 : ¬ pyLower args.environment = "local")
    (h2 : ¬ pyLower args.environment = "slurm") :
    (mainRun args ext).2 =
      Except.error (Err.unknownExecuter (pyLower args.environment)) ∧
    Ev.createLocalBuffer ∉ (mainRun args ext).1 ∧
    Ev.createSlurmBuffer ∉ (mainRun args ext).1 ∧
    Ev.createAgent ∉ (mainRun args ext).1 ∧
    (∀ e, Ev.fill e ∉ (mainRun args ext).1) := by
  have hb : selectBackend args.environment =
      Except.error (Err.unknownExecuter (pyLower args.environment)) := by
    simp only [selectBackend]
    rw [if_neg h1, if_neg h2]
  have hM := mainRun_error args ext _ _ (setupPhase_error args ext _ _
    (preHandoff_bad_exec args ext _ hs hf hb))
  rw [hM]
  refine ⟨rfl, ?_, ?_, ?_, ?_⟩ <;>
    by_cases hbase : ext.baseExists <;> simp [commonEvs, copyEvs, hbase]

/-- Witness for C5 at the concrete unknown-backend run. -/
theorem claim_C5_witness :
    (mainRun argsBadExec extSample).2 =
      Except.error (Err.unknownExecuter "pbs") :=
  (claim_C5_unknown_backend argsBadExec extSample (by decide) rfl
    (by decide) (by decide)).1

/-- Claim C6 (reset placement): when every episode of the loop over
`s, ..., episodes - 1` succeeds, each episode block contains exactly
one `buffer.reset()` except the final episode's block, which contains
none; hence the whole loop trace contains exactly `n - 1` resets —
exactly one between any two consecutive fills and none after the final
episode. -/
theorem claim_C6_reset_placement (ext : Extern) (episodes s n : Nat)
    (h : ∀ e, statsOk ext e) (hn : s + n = episodes) :
    ((runLoop ext episodes s n).1.count Ev.reset = n - 1) ∧
    (∀ e, (episodeEvents ext episodes e).count Ev.reset =
      if e = episodes - 1 then 0 else 1) :=
  ⟨runLoop_count_reset ext episodes h n s hn,
   fun e => episodeEvents_count_reset ext episodes e⟩

/-- Witness for C6 at a concrete two-episode loop: one reset. -/
theorem claim_C6_witness :
    (runLoop extSample 2 0 2).1.count Ev.reset = 1 :=
  (claim_C6_reset_placement extSample 2 0 2 (fun _ => ⟨_, rfl⟩) rfl).1

/-- Claim C7 (artifact indices): a fresh, fully successful run over
`episodes = args.iter` episodes writes exactly one agent checkpoint and
one standalone policy file per episode, with episode indices — and the
corresponding `checkpoint_<e>.pt` / `policy_trace_<e>.pt` file names —
taking exactly the values `0, 1, ..., episodes - 1` in increasing
order. -/
theorem claim_C7_artifact_indices (args : Args) (ext : Extern) (b : Backend)
    (hc : args.checkpoint = "")
    (hs : args.simulation ∈ SIMULATION_ENVIRONMENTS)
    (hf : ext.finishTimeOk args.finish args.simulation = true)
    (hb : selectBackend args.environment = Except.ok b)
    (h : ∀ e, statsOk ext e) :
    checkpointIndices (mainRun args ext).1 = List.range args.iter ∧
    policyIndices (mainRun args ext).1 = List.range args.iter ∧
    checkpointFiles (mainRun args ext).1 =
      (List.range args.iter).map checkpointFileName ∧
    policyFiles (mainRun args ext).1 =
      (List.range args.iter).map policyTraceFileName := by
  have hP := preHandoff_fresh args ext b hs hf hb hc
  have hS := setupPhase_ok args ext _ _ hP
  have hM := mainRun_ok args ext _ _ hS
  have hidx1 : checkpointIndices (mainRun args ext).1 = List.range args.iter := by
    rw [hM]
    have hn := (setupPhase_no_files args ext).1
    rw [hS] at hn
    dsimp only at hn ⊢
    rw [Nat.sub_zero]
    have hl1 := runLoop_checkpointIndices ext args.iter h args.iter 0
    simp only [checkpointIndices, List.filterMap_append] at hn hl1 ⊢
    rw [hn, hl1, List.range_eq_range']
    simp
  have hidx2 : policyIndices (mainRun args ext).1 = List.range args.iter := by
    rw [hM]
    have hn := (setupPhase_no_files args ext).2
    rw [hS] at hn
    dsimp only at hn ⊢
    rw [Nat.sub_zero]
    have hl2 := runLoop_policyIndices ext args.iter h args.iter 0
    simp only [policyIndices, List.filterMap_append] at hn hl2 ⊢
    rw [hn, hl2, List.range_eq_range']
    simp
  exact ⟨hidx1, hidx2, by simp only [checkpointFiles, hidx1],
    by simp only [policyFiles, hidx2]⟩

/-- Witness for C7 at the concrete fresh two-episode run: checkpoint
indices 0 then 1. -/
theorem claim_C7_witness :
    checkpointIndices (mainRun argsLocal extSample).1 = List.range 2 :=
  (claim_C7_artifact_indices argsLocal extSample Backend.localExec rfl
    (by decide) rfl rfl (fun _ => ⟨_, rfl⟩)).1

/-- Claim C8 (statistics are purely observational): whenever the
statistics call of episode `e` succeeds, its numeric result influences
nothing — the iteration emits the same event block for any returned
statistics value — and `agent.update` receives exactly the states,
actions and rewards sequences read from `buffer.observations`: the
block's update event carries precisely that triple and nothing else. -/
theorem claim_C8_stats_observational (ext : Extern) (episodes e : Nat)
    (st : Stats)
    (h : print_statistics (ext.obsAt e).actions (ext.obsAt e).rewards =
      Except.ok st) :
    episodeStep ext episodes e = (episodeEvents ext episodes e, Except.ok ()) ∧
    Ev.update e (ext.obsAt e).states (ext.obsAt e).actions
      (ext.obsAt e).rewards ∈ (episodeStep ext episodes e).1 ∧
    (∀ stx ax rx, Ev.update e stx ax rx ∈ (episodeStep ext episodes e).1 →
      stx = (ext.obsAt e).states ∧ ax = (ext.obsAt e).actions ∧
        rx = (ext.obsAt e).rewards) := by
  have h1 := episodeStep_ok ext episodes e st h
  refine ⟨h1, ?_, ?_⟩
  · rw [h1]
    simp [episodeEvents]
  · intro stx ax rx hm
    rw [h1] at hm
    exact (update_mem_episodeEvents ext episodes e e stx ax rx hm).2

/-- Witness for C8 at a concrete successful episode. -/
theorem claim_C8_witness :
    Ev.update 0 sampleObs.states sampleObs.actions sampleObs.rewards ∈
      (episodeStep extSample 2 0).1 :=
  (claim_C8_stats_observational extSample 2 0 _ rfl).2.1

/-- Claim C9 (time-window hand-off): on every run that completes setup,
fresh or resumed, the driver sets the base environment's start time to
its current end time and then its end time to the CLI finish value,
immediately followed by the pre-loop reset — and no reset and no fill
occurs before these two writes. -/
theorem claim_C9_time_window_handoff (args : Args) (ext : Extern)
    (evs : List Ev) (st0 : LoopStart)
    (h : preHandoff args ext = (evs, Except.ok st0)) :
    setupPhase args ext =
      (evs ++ [Ev.setStartTime st0.buffer.base_env.end_time,
               Ev.setEndTime args.finish, Ev.reset],
       Except.ok ⟨st0.starting,
         ⟨st0.buffer.n_fills,
          ⟨st0.buffer.base_env.end_time, args.finish⟩⟩⟩) ∧
    Ev.reset ∉ evs ∧ (∀ e, Ev.fill e ∉ evs) := by
  refine ⟨setupPhase_ok args ext evs st0 h, ?_, ?_⟩
  · intro hm
    have := preHandoff_mem args ext _ (by rw [h]; exact hm)
    simp [setupEv] at this
  · intro e hm
    have := preHandoff_mem args ext _ (by rw [h]; exact hm)
    simp [setupEv] at this

/-- Witness for C9 at the concrete fresh run: the base case ended at
time 4, so the trial window becomes start 4, end 8, set just before the
pre-loop reset. -/
theorem claim_C9_witness :
    setupPhase argsLocal extSample =
      ((commonEvs extSample ++ bufEvs Backend.localExec ++
          [Ev.createAgent, Ev.createDummyPolicy, Ev.prepare]) ++
        [Ev.setStartTime 4, Ev.setEndTime 8, Ev.reset],
       Except.ok ⟨0, ⟨0, ⟨4, 8⟩⟩⟩) :=
  (claim_C9_time_window_handoff argsLocal extSample _ ⟨0, ⟨0, ⟨0, 4⟩⟩⟩ rfl).1

/-- Claim C10 (case-insensitive backend selection): the CLI backend
string is lowercased before comparison, so any string lowering to
"local" or "slurm" — such as "Local", "LOCAL" or "Slurm" — selects the
corresponding backend, and any other string yields the unknown-backend
error carrying the lowered name. -/
theorem claim_C10_backend_case_insensitive :
    (∀ s, pyLower s = "local" →
      selectBackend s = Except.ok Backend.localExec) ∧
    (∀ s, pyLower s = "slurm" →
      selectBackend s = Except.ok Backend.slurmExec) ∧
    (∀ s, ¬ pyLower s = "local" → ¬ pyLower s = "slurm" →
      selectBackend s = Except.error (Err.unknownExecuter (pyLower s))) ∧
    selectBackend "Local" = Except.ok Backend.localExec ∧
    selectBackend "LOCAL" = Except.ok Backend.localExec ∧
    selectBackend "Slurm" = Except.ok Backend.slurmExec := by
  refine ⟨?_, ?_, ?_, rfl, rfl, rfl⟩
  · intro s hl
    simp [selectBackend, hl]
  · intro s hl
    simp [selectBackend, hl]
  · intro s h1 h2
    simp only [selectBackend]
    rw [if_neg h1, if_neg h2]

/-- Witness for C10: a fully upper-case backend string still selects
the slurm backend. -/
theorem claim_C10_witness :
    selectBackend "SLURM" = Except.ok Backend.slurmExec :=
  (claim_C10_backend_case_insensitive).2.1 "SLURM" rfl
